import Mathlib

/-!
Verification of the LeaseLooker hybrid-RAG core (`src/LeaseRAG.py`,
`src/config.py`) by a shallow embedding in Lean.

Conventions of the embedding:
* Python strings are Lean `String`s; the handful of string operations the
  code needs (template substitution, splitting) are defined here as
  structurally recursive functions so that concrete instances reduce.
* Python `float` scores are modelled as exact rationals `ℚ`; no theorem
  below depends on floating-point rounding.
* The fallible parts (the `ValueError` raises, the external OpenAI calls)
  are modelled with `Except PyErr`.
* Third-party library calls whose behaviour the repository relies on
  (pypdf page numbering, the langchain `EnsembleRetriever` fusion rule,
  prompt formatting of `create_stuff_documents_chain`) are embedded from
  the documented behaviour of those libraries, as invoked by the code.
-/

namespace LeaseLooker

/-- Configuration constant `CHUNK_SIZE = 250` from `config.py`. -/
def CHUNK_SIZE : Int := 250

/-- Configuration constant `CHUNK_OVERLAP = 50` from `config.py`. -/
def CHUNK_OVERLAP : Int := 50

/-- Configuration constant `SEPARATORS` from `config.py`. -/
def SEPARATORS : List String := ["\n\n", "\n", ". ", " ", ""]

/-- Configuration constant `NUM_CHUNKS = 3` from `config.py`: the `k`
given to each of the two retrievers (`LeaseRAG.py` lines 113 and 119). -/
def NUM_CHUNKS : Nat := 3

/-- Configuration constant `BM25_WEIGHT = 0.3` from `config.py`,
modelled as the exact rational 3/10. -/
def BM25_WEIGHT : ℚ := 3 / 10

/-- Configuration constant `FAISS_WEIGHT = 0.7` from `config.py`,
modelled as the exact rational 7/10. -/
def FAISS_WEIGHT : ℚ := 7 / 10

/-- Configuration constant `MAX_RESPONSE_SENTENCES = 5` from `config.py`. -/
def MAX_RESPONSE_SENTENCES : Nat := 5

/-- A langchain `Document`: the unit both retrievers rank and the
chunker produces.  `page_content` is the text; `page` and `source` embed
the metadata entries of the same names (`page` is absent exactly when the
metadata dictionary has no `'page'` key, and likewise for `source`). -/
structure Doc where
  page_content : String
  page : Option Nat
  source : Option String
deriving DecidableEq, Repr

/-- Python exception values the embedded code can surface.
`valueError` embeds the `ValueError`s raised at `LeaseRAG.py` lines 72
and 173; `openAIError` models a failure of the external OpenAI
embedding/completion service.  `configurationError` and `notReadyError`
are the distinct error kinds named by the specification; they exist in
this type so that claims about them can be stated — nothing in the
embedded code ever constructs them. -/
inductive PyErr where
  | valueError (msg : String)
  | openAIError (msg : String)
  | configurationError (msg : String)
  | notReadyError (msg : String)
deriving DecidableEq, Repr

/-- Whether an error is the distinct invalid-state kind (`NotReadyError`)
the specification calls for. -/
def PyErr.isNotReadyError : PyErr → Bool
  | .notReadyError _ => true
  | _ => false

/-- Whether an error is the distinct construction-time kind
(`ConfigurationError`) the specification calls for. -/
def PyErr.isConfigurationError : PyErr → Bool
  | .configurationError _ => true
  | _ => false

/-! ### The hybrid fusion rule

`LeaseRAG._setup_retrievers` (`LeaseRAG.py` lines 124-127) combines the
BM25 and FAISS retrievers with langchain's `EnsembleRetriever`, whose
fusion rule is weighted reciprocal rank fusion: given the ranked list of
each retriever, a document keyed by its `page_content` accumulates
`weight / (rank + c)` (ranks starting at 1, `c = 60`) from every list it
appears in; the union of the lists, de-duplicated by key keeping first
occurrences, is then sorted by this fused score, descending and stable.
The definitions below embed that rule with the weights configured by the
repository. -/

/-- The rank-fusion smoothing constant of `EnsembleRetriever` (`c = 60`). -/
def RRF_C : ℚ := 60

/-- The contribution one retriever's ranked list makes to the fused score
of the key `key`: `weight / (rank + c)` summed over the positions of
`key` in the list, ranks counted from 1. -/
def rankContrib (w : ℚ) (docList : List Doc) (key : String) : ℚ :=
  ((docList.enum.filter (fun p => p.2.page_content = key)).map
    (fun p => w / ((p.1 + 1 : ℚ) + RRF_C))).sum

/-- The fused (weighted reciprocal rank) score of the key `key`, given
the BM25 list (weight 0.3) and the FAISS list (weight 0.7). -/
def rrfScore (bm25 faiss : List Doc) (key : String) : ℚ :=
  rankContrib BM25_WEIGHT bm25 key + rankContrib FAISS_WEIGHT faiss key

/-- De-duplication by `page_content` keeping first occurrences, with the
set of already-seen keys carried as an accumulator — the `unique_by_key`
pass of `EnsembleRetriever`. -/
def uniqueByKeyAux (seen : List String) : List Doc → List Doc
  | [] => []
  | d :: ds =>
      if d.page_content ∈ seen then uniqueByKeyAux seen ds
      else d :: uniqueByKeyAux (d.page_content :: seen) ds

/-- De-duplication by `page_content` keeping first occurrences. -/
def uniqueByKey (l : List Doc) : List Doc := uniqueByKeyAux [] l

/-- Stable insertion into a list sorted by descending score: the new
element (which originates earlier in the input order) is placed before
the first element whose score does not exceed its own, matching the
stability of Python's `sorted([...], reverse=True)`. -/
def insertDesc (score : Doc → ℚ) (d : Doc) : List Doc → List Doc
  | [] => [d]
  | x :: xs => if score x ≤ score d then d :: x :: xs else x :: insertDesc score d xs

/-- Stable sort by descending score (insertion sort). -/
def sortDesc (score : Doc → ℚ) : List Doc → List Doc
  | [] => []
  | x :: xs => insertDesc score x (sortDesc score xs)

/-- The fused ranking of `EnsembleRetriever.invoke` as configured at
`LeaseRAG.py` lines 124-127: de-duplicate the concatenation of the BM25
list and the FAISS list by `page_content`, then sort by the weighted
reciprocal rank score, descending.  Note the library returns this whole
fused list — it performs no truncation to `NUM_CHUNKS`. -/
def weightedReciprocalRank (bm25 faiss : List Doc) : List Doc :=
  sortDesc (fun d => rrfScore bm25 faiss d.page_content) (uniqueByKey (bm25 ++ faiss))

/-! ### Loading and chunking (`LeaseRAG._load_and_chunk_document`) -/

/-- Embeds `PyPDFLoader(self.pdf_path).load()` (`LeaseRAG.py` lines
85-86): pypdf emits one document per page, whose metadata carries
`source` = the path and `page` = the 0-based index of the page in the
file (the first page gets `page = 0`). -/
def pyPDFLoad (path : String) (pages : List String) : List Doc :=
  pages.enum.map fun p => { page_content := p.2, page := some p.1, source := some path }

/-- Splitting a character list on a separator character list, dropping
the separators (structural worker for `splitBySep`). -/
def splitChars (sep : List Char) : List Char → List Char → List (List Char)
  | [], cur => [cur.reverse]
  | c :: cs, cur =>
      if sep ≠ [] ∧ sep.isPrefixOf (c :: cs) then
        cur.reverse :: splitChars sep (List.drop (sep.length - 1) cs) []
      else
        splitChars sep cs (c :: cur)
termination_by l _ => l.length
decreasing_by
  all_goals simp [List.length_drop]
  omega

/-- Splitting a string on a separator.  The empty separator splits the
string into its individual characters, as Python's splitter does when it
reaches the final `""` entry of `SEPARATORS`. -/
def splitBySep (sep : String) (s : String) : List String :=
  if sep = "" then s.data.map (fun c => String.mk [c])
  else (splitChars sep.data s.data []).map String.mk

/-- Hard character-boundary chunking into pieces of at most `n`
characters, with explicit fuel so the recursion is structural; fuel
equal to the list length always suffices. -/
def hardChunksFuel (n : Nat) : Nat → List Char → List (List Char)
  | 0, l => [l]
  | fuel + 1, l =>
      if l.length ≤ n ∨ n = 0 then [l]
      else l.take n :: hardChunksFuel n fuel (l.drop n)

/-- Hard character-boundary chunking into pieces of at most `n` characters. -/
def hardChunks (n : Nat) (s : String) : List String :=
  (hardChunksFuel n s.data.length s.data).map String.mk

/-- Greedy left-to-right merging of split pieces into chunks of at most
`chunkSize` characters, re-inserting the separator between merged
pieces — the `_merge_splits` pass of the langchain character splitter. -/
def mergeSplits (chunkSize : Nat) (sep : String) (pieces : List String) : List String :=
  let step := fun (acc : List String × Option String) (p : String) =>
    match acc.2 with
    | none => (acc.1, some p)
    | some cur =>
        if (cur ++ sep ++ p).length ≤ chunkSize then (acc.1, some (cur ++ sep ++ p))
        else (acc.1 ++ [cur], some p)
  match pieces.foldl step ([], none) with
  | (out, none) => out
  | (out, some cur) => out ++ [cur]

/-- Embeds the recursive character splitting of
`RecursiveCharacterTextSplitter` as configured at `LeaseRAG.py` lines
89-94: a text that already fits within `chunkSize` is kept whole as a
single chunk; otherwise the text is split on the first separator of the
list, oversized pieces are split recursively with the remaining
separators, and the pieces are greedily merged back into chunks of at
most `chunkSize` characters.  The library's keep-separator and
`chunk_overlap` refinements of the merge step are elided; no theorem in
this development depends on the chunk boundaries of an oversized page. -/
def splitText (chunkSize : Nat) : List String → String → List String
  | [], s => hardChunks chunkSize s
  | sep :: rest, s =>
      if s.length ≤ chunkSize then [s]
      else
        let pieces := splitBySep sep s
        mergeSplits chunkSize sep
          ((pieces.map (fun p =>
            if p.length ≤ chunkSize then [p] else splitText chunkSize rest p)).flatten)

/-- Embeds `text_splitter.split_documents(pages)` (`LeaseRAG.py` line
95): every page document's text is split by the character splitter and
each resulting piece becomes a chunk carrying an unchanged copy of that
page document's metadata (the `add_start_index` offset the library also
records is not modelled — nothing here reads it). -/
def splitDocuments (chunkSize : Int) (seps : List String) (docs : List Doc) : List Doc :=
  docs.flatMap fun d =>
    (splitText chunkSize.toNat seps d.page_content).map
      fun t => { page_content := t, page := d.page, source := d.source }

/-! ### The prompt and the query path -/

/-- The document formatting of `create_stuff_documents_chain`: each
context document contributes its `page_content`, joined by the default
document separator, a blank line. -/
def formatDocs (docs : List Doc) : String :=
  String.intercalate "\n\n" (docs.map Doc.page_content)

/-- The single prompt sent to the completion model: the template
hard-coded in `LeaseRAG._setup_chain` (`LeaseRAG.py` lines 138-146) with
the formatted context documents substituted for its context placeholder
and the question for its input placeholder.  The wording — including the
typo "answer is a concise manner" and the fixed "No more than 5
sentences." — is that of the hard-coded template. -/
def buildPrompt (docs : List Doc) (question : String) : String :=
  "Answer the question based ONLY on the context below.\nFor every fact, you MUST cite the Page Number found in the metadata.\nTry to answer is a concise manner. No more than 5 sentences.\n\nContext:\n"
    ++ formatDocs docs ++ "\n\nQuestion: " ++ question ++ "\nAnswer:"

/-- The prompt the system sends, viewed as a function of the configured
`MAX_RESPONSE_SENTENCES` value: `_setup_chain` defines its own literal
template and never uses the `MAX_RESPONSE_SENTENCES` (or
`PROMPT_TEMPLATE`) it imports from `config.py`, so the configured value
does not occur in the result. -/
def promptForConfig (maxResponseSentences : Nat) (docs : List Doc) (question : String) :
    String :=
  buildPrompt docs question

/-- Rendering of the `PROMPT_TEMPLATE` of `config.py` (lines 43-51),
which does interpolate its `max_sentences` placeholder — given here for
contrast with `promptForConfig`; the repository never renders it. -/
def renderPromptTemplate (maxSentences : Nat) (context input : String) : String :=
  "Answer the question based ONLY on the context below.\nFor every fact, you MUST cite the Page Number found in the metadata.\nTry to answer in a concise manner. No more than "
    ++ toString maxSentences ++ " sentences.\n\nContext:\n" ++ context
    ++ "\n\nQuestion: " ++ input ++ "\nAnswer:"

/-- The value of a metadata lookup with a string default, as produced by
`doc.metadata.get('page', 'Unknown')`: either the stored integer or the
default string. -/
inductive SourceVal where
  | int (n : Nat)
  | str (s : String)
deriving DecidableEq, Repr

/-- One entry of the `sources` list assembled by `LeaseRAG.query`
(`LeaseRAG.py` lines 181-185). -/
structure SourceEntry where
  content : String
  page : SourceVal
  source : SourceVal
deriving DecidableEq, Repr

/-- The source entry built from one context document:
`doc.metadata.get('page', 'Unknown')` yields the stored page index when
present and the string `"Unknown"` otherwise, and likewise for the
source path. -/
def mkSource (d : Doc) : SourceEntry :=
  { content := d.page_content
    page := match d.page with
      | some n => .int n
      | none => .str "Unknown"
    source := match d.source with
      | some s => .str s
      | none => .str "Unknown" }

/-- The dictionary returned by `LeaseRAG.query`: the answer, the
`sources` list, and (standing for the `raw_response` entry) the context
document list of the chain's response. -/
structure QueryResult where
  answer : String
  sources : List SourceEntry
  context : List Doc
deriving DecidableEq, Repr

/-- The attribute state of a `LeaseRAG` instance: the fields set by
`__init__` (`LeaseRAG.py` lines 62-68) and filled by the three setup
steps.  `hybrid_retriever` and `retriever_chain` record whether those
attributes hold a built object (`true`) or are still `None` (`false`). -/
structure RAGState where
  pdf_path : String
  chunk_size : Int
  chunk_overlap : Int
  chunks : List Doc
  num_chunks : Nat
  hybrid_retriever : Bool
  retriever_chain : Bool
deriving DecidableEq, Repr

/-- Embeds `LeaseRAG.query` (`LeaseRAG.py` lines 162-191).  `retrieve`
stands for the hybrid retrieval step of the chain (the fused document
list the chain places in the prompt and reports as `context`), and
`complete` for the external completion call on the built prompt; the
second component of the result is the attribute state after the call —
the method body assigns no attribute, so the input state is returned. -/
def LeaseRAG.query (st : RAGState) (retrieve : String → List Doc)
    (complete : String → Except PyErr String) (question : String) :
    Except PyErr QueryResult × RAGState :=
  if st.retriever_chain = false then
    (.error (.valueError "RAG system not initialized"), st)
  else
    let ctx := retrieve question
    match complete (buildPrompt ctx question) with
    | .error e => (.error e, st)
    | .ok ans => (.ok { answer := ans, sources := ctx.map mkSource, context := ctx }, st)

/-- The `or`-fallback of `__init__` (`LeaseRAG.py` lines 63-64):
`chunk_size or CHUNK_SIZE` in Python yields the default both when the
argument is `None` and when it is the falsy integer `0`. -/
def pyOrInt (x : Option Int) (d : Int) : Int :=
  match x with
  | none => d
  | some v => if v = 0 then d else v

/-- The externally visible side effects of construction, in the order
`__init__` performs them. -/
inductive InitEffect where
  | loadPdf
  | embedChunks
  | buildFaissIndex
  | buildBM25Index
  | buildChain
deriving DecidableEq, Repr

/-- Embeds `LeaseRAG.__init__` (`LeaseRAG.py` lines 53-77).  `apiKey` is
`os.environ.get('OPENAI_API_KEY')` (`none` when unset); the guard `if
not os.environ.get(...)` treats both an unset and an empty value as
missing and raises before any of the setup steps run.  `pages` is the
page text sequence of the PDF at `pdfPath`.  Alongside the result the
ordered list of performed external effects is returned; a raise before
the setup steps yields the empty effect list. -/
def LeaseRAG.init (apiKey : Option String) (pdfPath : String)
    (chunkSize chunkOverlap : Option Int) (pages : List String) :
    Except PyErr RAGState × List InitEffect :=
  let cs := pyOrInt chunkSize CHUNK_SIZE
  let co := pyOrInt chunkOverlap CHUNK_OVERLAP
  if apiKey.getD "" = "" then
    (.error (.valueError "OPENAI_API_KEY environment variable not set"), [])
  else
    let chunks := splitDocuments cs SEPARATORS (pyPDFLoad pdfPath pages)
    (.ok { pdf_path := pdfPath, chunk_size := cs, chunk_overlap := co,
           chunks := chunks, num_chunks := chunks.length,
           hybrid_retriever := true, retriever_chain := true },
     [.loadPdf, .embedChunks, .buildFaissIndex, .buildBM25Index, .buildChain])

/-- The dictionary returned by `LeaseRAG.get_stats`. -/
structure Stats where
  num_chunks : Nat
  chunk_size : Int
  chunk_overlap : Int
  pdf_path : String
deriving DecidableEq, Repr

/-- Embeds `LeaseRAG.get_stats` (`LeaseRAG.py` lines 193-200). -/
def LeaseRAG.get_stats (st : RAGState) : Stats :=
  { num_chunks := st.num_chunks
    chunk_size := st.chunk_size
    chunk_overlap := st.chunk_overlap
    pdf_path := st.pdf_path }

/-! ### Lemmas about the fusion rule -/

theorem insertDesc_perm (score : Doc → ℚ) (d : Doc) (l : List Doc) :
    (insertDesc score d l).Perm (d :: l) := by
  induction l with
  | nil => simp [insertDesc]
  | cons x xs ih =>
      by_cases h : score x ≤ score d
      · simp [insertDesc, h]
      · simp only [insertDesc, if_neg h]
        exact ((ih.cons x).trans (List.Perm.swap d x xs))

theorem mem_insertDesc {score : Doc → ℚ} {d y : Doc} {l : List Doc} :
    y ∈ insertDesc score d l ↔ y = d ∨ y ∈ l := by
  rw [(insertDesc_perm score d l).mem_iff, List.mem_cons]

theorem sortDesc_perm (score : Doc → ℚ) (l : List Doc) :
    (sortDesc score l).Perm l := by
  induction l with
  | nil => simp [sortDesc]
  | cons x xs ih =>
      exact (insertDesc_perm score x (sortDesc score xs)).trans (ih.cons x)

theorem insertDesc_pairwise {score : Doc → ℚ} {d : Doc} {l : List Doc}
    (h : l.Pairwise (fun a b => score b ≤ score a)) :
    (insertDesc score d l).Pairwise (fun a b => score b ≤ score a) := by
  induction l with
  | nil => simp [insertDesc]
  | cons x xs ih =>
      rcases List.pairwise_cons.mp h with ⟨hx, hxs⟩
      by_cases hc : score x ≤ score d
      · simp only [insertDesc, if_pos hc]
        refine List.pairwise_cons.mpr ⟨?_, h⟩
        intro y hy
        rcases List.mem_cons.mp hy with rfl | hy'
        · exact hc
        · exact le_trans (hx y hy') hc
      · simp only [insertDesc, if_neg hc]
        refine List.pairwise_cons.mpr ⟨?_, ih hxs⟩
        intro y hy
        rcases mem_insertDesc.mp hy with rfl | hy'
        · exact le_of_not_le hc
        · exact hx y hy'

theorem sortDesc_pairwise (score : Doc → ℚ) (l : List Doc) :
    (sortDesc score l).Pairwise (fun a b => score b ≤ score a) := by
  induction l with
  | nil => simp [sortDesc]
  | cons x xs ih => exact insertDesc_pairwise ih

theorem mem_of_mem_uniqueByKeyAux {seen : List String} {l : List Doc} {x : Doc}
    (h : x ∈ uniqueByKeyAux seen l) : x ∈ l := by
  induction l generalizing seen with
  | nil => simpa [uniqueByKeyAux] using h
  | cons d ds ih =>
      by_cases hc : d.page_content ∈ seen
      · simp only [uniqueByKeyAux, if_pos hc] at h
        exact List.mem_cons_of_mem d (ih h)
      · simp only [uniqueByKeyAux, if_neg hc] at h
        rcases List.mem_cons.mp h with rfl | h'
        · exact List.mem_cons_self x ds
        · exact List.mem_cons_of_mem d (ih h')

theorem uniqueByKeyAux_keys (l : List Doc) : ∀ (seen : List String) (k : String),
    (∃ d ∈ uniqueByKeyAux seen l, d.page_content = k) ↔
      (∃ d ∈ l, d.page_content = k) ∧ k ∉ seen := by
  induction l with
  | nil => intro seen k; simp [uniqueByKeyAux]
  | cons d ds ih =>
      intro seen k
      by_cases hc : d.page_content ∈ seen
      · rw [uniqueByKeyAux, if_pos hc, ih seen k]
        simp only [List.mem_cons]
        constructor
        · rintro ⟨⟨x, hx, hxk⟩, hk⟩
          exact ⟨⟨x, Or.inr hx, hxk⟩, hk⟩
        · rintro ⟨⟨x, hx, hxk⟩, hk⟩
          rcases hx with rfl | hx
          · subst hxk; exact absurd hc hk
          · exact ⟨⟨x, hx, hxk⟩, hk⟩
      · rw [uniqueByKeyAux, if_neg hc]
        simp only [List.mem_cons]
        constructor
        · rintro ⟨x, hx, hxk⟩
          rcases hx with rfl | hx
          · refine ⟨⟨x, Or.inl rfl, hxk⟩, ?_⟩
            intro hk
            rw [← hxk] at hk
            exact hc hk
          · rcases (ih (d.page_content :: seen) k).mp ⟨x, hx, hxk⟩ with ⟨⟨y, hy, hyk⟩, hk⟩
            exact ⟨⟨y, Or.inr hy, hyk⟩, fun hkseen => hk (List.mem_cons_of_mem _ hkseen)⟩
        · rintro ⟨⟨x, hx, hxk⟩, hk⟩
          rcases hx with rfl | hx
          · exact ⟨x, Or.inl rfl, hxk⟩
          · by_cases hkd : k = d.page_content
            · exact ⟨d, Or.inl rfl, hkd.symm⟩
            · rcases (ih (d.page_content :: seen) k).mpr
                ⟨⟨x, hx, hxk⟩, by
                  intro hmem
                  rcases List.mem_cons.mp hmem with h1 | h1
                  · exact hkd h1
                  · exact hk h1⟩ with ⟨y, hy, hyk⟩
              exact ⟨y, Or.inr hy, hyk⟩

theorem uniqueByKeyAux_keys_nodup (l : List Doc) : ∀ (seen : List String),
    ((uniqueByKeyAux seen l).map Doc.page_content).Nodup := by
  induction l with
  | nil => intro seen; simp [uniqueByKeyAux]
  | cons d ds ih =>
      intro seen
      by_cases hc : d.page_content ∈ seen
      · rw [uniqueByKeyAux, if_pos hc]
        exact ih seen
      · rw [uniqueByKeyAux, if_neg hc]
        simp only [List.map_cons, List.nodup_cons]
        refine ⟨?_, ih _⟩
        intro hmem
        rcases List.mem_map.mp hmem with ⟨x, hx, hxk⟩
        have h2 := (uniqueByKeyAux_keys ds (d.page_content :: seen) d.page_content).mp
          ⟨x, hx, hxk⟩
        exact h2.2 (List.mem_cons_self _ _)

theorem uniqueByKeyAux_length (l : List Doc) : ∀ (seen : List String),
    (uniqueByKeyAux seen l).length ≤ l.length := by
  induction l with
  | nil => intro seen; simp [uniqueByKeyAux]
  | cons d ds ih =>
      intro seen
      by_cases hc : d.page_content ∈ seen
      · rw [uniqueByKeyAux, if_pos hc]
        exact le_trans (ih seen) (Nat.le_succ _)
      · rw [uniqueByKeyAux, if_neg hc]
        exact Nat.succ_le_succ (ih _)

theorem uniqueByKey_keys (l : List Doc) (k : String) :
    (∃ d ∈ uniqueByKey l, d.page_content = k) ↔ ∃ d ∈ l, d.page_content = k := by
  unfold uniqueByKey
  rw [uniqueByKeyAux_keys l [] k]
  simp

theorem weightedReciprocalRank_mem {bm25 faiss : List Doc} {d : Doc}
    (h : d ∈ weightedReciprocalRank bm25 faiss) : d ∈ bm25 ++ faiss :=
  mem_of_mem_uniqueByKeyAux
    ((sortDesc_perm _ (uniqueByKey (bm25 ++ faiss))).mem_iff.mp h)

theorem weightedReciprocalRank_keys (bm25 faiss : List Doc) (k : String) :
    (∃ d ∈ weightedReciprocalRank bm25 faiss, d.page_content = k) ↔
      ∃ d ∈ bm25 ++ faiss, d.page_content = k := by
  unfold weightedReciprocalRank
  constructor
  · rintro ⟨d, hd, rfl⟩
    exact (uniqueByKey_keys _ _).mp
      ⟨d, (sortDesc_perm _ _).mem_iff.mp hd, rfl⟩
  · intro h
    rcases (uniqueByKey_keys (bm25 ++ faiss) k).mpr h with ⟨d, hd, hk⟩
    exact ⟨d, (sortDesc_perm _ _).mem_iff.mpr hd, hk⟩

/-! ### Concrete instances used by witnesses and counterexamples -/

/-- The two page texts of end-to-end scenario A of the specification. -/
def scenarioAPages : List String :=
  ["The monthly rent is $1500, due on the 1st.",
   "Pets are not allowed without written consent."]

/-- The chunk cut from the first page of scenario A: pypdf assigns the
first page the metadata index 0. -/
def rentDoc : Doc :=
  { page_content := "The monthly rent is $1500, due on the 1st."
    page := some 0
    source := some "lease.pdf" }

/-- The chunk cut from the second page of scenario A. -/
def petsDoc : Doc :=
  { page_content := "Pets are not allowed without written consent."
    page := some 1
    source := some "lease.pdf" }

/-- The attribute state `__init__` produces for scenario A (each page
fits in one chunk of the configured size 250). -/
def scenarioAState : RAGState :=
  { pdf_path := "lease.pdf", chunk_size := 250, chunk_overlap := 50,
    chunks := [rentDoc, petsDoc], num_chunks := 2,
    hybrid_retriever := true, retriever_chain := true }

/-- An attribute state whose retriever chain was never built (the Empty
state of the specification's facade state machine). -/
def emptyState : RAGState :=
  { pdf_path := "lease.pdf", chunk_size := 250, chunk_overlap := 50,
    chunks := [], num_chunks := 0,
    hybrid_retriever := false, retriever_chain := false }

/-- A chunk with the given text and scenario-A style metadata. -/
def exDoc (s : String) : Doc :=
  { page_content := s, page := some 0, source := some "lease.pdf" }

/-- A BM25 top-3 list whose contents are disjoint from `exFAISS`. -/
def exBM25 : List Doc := [exDoc "alpha", exDoc "bravo", exDoc "charlie"]

/-- A FAISS top-3 list whose contents are disjoint from `exBM25`. -/
def exFAISS : List Doc := [exDoc "delta", exDoc "echo", exDoc "foxtrot"]

/-- A retrieved chunk whose metadata carries neither a page entry nor a
source entry. -/
def noPageDoc : Doc :=
  { page_content := "Late fees are 5% after a three day grace period."
    page := none
    source := none }

/-! ### The claims -/

/-- C1: for every pair of ranked lists returned by the BM25 and FAISS
retrievers, the fused candidate set of the hybrid retriever is exactly
the union of the chunks appearing in at least one list — the fused
result's key set equals the union of the two lists' key sets (nothing
from outside both lists, nothing found by only one method dropped, also
when the lists are disjoint), and every fused document is drawn from the
two lists. -/
theorem hybrid_fusion_union (bm25 faiss : List Doc) :
    ((weightedReciprocalRank bm25 faiss).map Doc.page_content).toFinset =
      (bm25.map Doc.page_content).toFinset ∪ (faiss.map Doc.page_content).toFinset ∧
    (weightedReciprocalRank bm25 faiss).toFinset ⊆ (bm25 ++ faiss).toFinset := by
  constructor
  · ext k
    simp only [List.mem_toFinset, Finset.mem_union, List.mem_map]
    rw [show (∃ a, a ∈ weightedReciprocalRank bm25 faiss ∧ a.page_content = k) ↔
        (∃ d ∈ bm25 ++ faiss, d.page_content = k) from
      weightedReciprocalRank_keys bm25 faiss k]
    simp only [List.mem_append]
    constructor
    · rintro ⟨d, hd | hd, rfl⟩
      · exact Or.inl ⟨d, hd, rfl⟩
      · exact Or.inr ⟨d, hd, rfl⟩
    · rintro (⟨d, hd, rfl⟩ | ⟨d, hd, rfl⟩)
      · exact ⟨d, Or.inl hd, rfl⟩
      · exact ⟨d, Or.inr hd, rfl⟩
  · intro d hd
    rw [List.mem_toFinset] at *
    exact weightedReciprocalRank_mem hd

/-- Witness for C1 at the disjoint scenario lists. -/
theorem hybrid_fusion_union_witness :
    ((weightedReciprocalRank exBM25 exFAISS).map Doc.page_content).toFinset =
      (exBM25.map Doc.page_content).toFinset ∪ (exFAISS.map Doc.page_content).toFinset ∧
    (weightedReciprocalRank exBM25 exFAISS).toFinset ⊆ (exBM25 ++ exFAISS).toFinset :=
  hybrid_fusion_union exBM25 exFAISS

/-- C2 (amended): the fused result's length is bounded by the combined
length of the two retrievers' lists (hence by twice the configured
top-N, not by the top-N itself — the ensemble performs no truncation),
its fused scores are non-increasing from first to last, and it contains
no duplicate chunks. -/
theorem fused_result_invariants (bm25 faiss : List Doc) :
    (weightedReciprocalRank bm25 faiss).length ≤ bm25.length + faiss.length ∧
    (weightedReciprocalRank bm25 faiss).Pairwise
      (fun a b => rrfScore bm25 faiss b.page_content ≤ rrfScore bm25 faiss a.page_content) ∧
    ((weightedReciprocalRank bm25 faiss).map Doc.page_content).Nodup := by
  unfold weightedReciprocalRank
  refine ⟨?_, ?_, ?_⟩
  · rw [(sortDesc_perm _ _).length_eq]
    calc (uniqueByKey (bm25 ++ faiss)).length
        ≤ (bm25 ++ faiss).length := uniqueByKeyAux_length _ []
      _ = bm25.length + faiss.length := List.length_append _ _
  · exact sortDesc_pairwise _ _
  · exact (((sortDesc_perm _ _).map Doc.page_content).nodup_iff).mpr
      (uniqueByKeyAux_keys_nodup _ [])

/-- Witness for C2's amended statement at the disjoint scenario lists. -/
theorem fused_result_invariants_witness :
    (weightedReciprocalRank exBM25 exFAISS).length ≤ exBM25.length + exFAISS.length ∧
    (weightedReciprocalRank exBM25 exFAISS).Pairwise
      (fun a b => rrfScore exBM25 exFAISS b.page_content ≤
        rrfScore exBM25 exFAISS a.page_content) ∧
    ((weightedReciprocalRank exBM25 exFAISS).map Doc.page_content).Nodup :=
  fused_result_invariants exBM25 exFAISS

/-- Counterexample to C2 as stated: when the two methods each return
their configured top-3 and the lists are disjoint, the fused result has
6 elements, exceeding the configured top-N of `NUM_CHUNKS = 3`. -/
theorem fused_exceeds_configured_topN :
    exBM25.length ≤ NUM_CHUNKS ∧ exFAISS.length ≤ NUM_CHUNKS ∧
    (weightedReciprocalRank exBM25 exFAISS).length = 6 ∧
    ¬ (weightedReciprocalRank exBM25 exFAISS).length ≤ NUM_CHUNKS := by
  have hlen : (weightedReciprocalRank exBM25 exFAISS).length =
      (uniqueByKey (exBM25 ++ exFAISS)).length := (sortDesc_perm _ _).length_eq
  have h6 : (uniqueByKey (exBM25 ++ exFAISS)).length = 6 := by decide
  refine ⟨by decide, by decide, by rw [hlen, h6], by rw [hlen, h6]; decide⟩

/-- C3: every successful `query` call reports `sources` as exactly the
chunk list that was placed in the completion prompt's context, one entry
per context chunk in the same order, each carrying that chunk's text and
page metadata; the prompt sent to the completion service is the one
built over that same context list. -/
theorem query_sources_match_prompt_context (st : RAGState)
    (retrieve : String → List Doc) (complete : String → Except PyErr String)
    (q : String) (r : QueryResult)
    (hok : (LeaseRAG.query st retrieve complete q).1 = .ok r) :
    r.context = retrieve q ∧
    r.sources = r.context.map mkSource ∧
    complete (buildPrompt r.context q) = .ok r.answer := by
  unfold LeaseRAG.query at hok
  by_cases hready : st.retriever_chain = false
  · rw [if_pos hready] at hok
    exact absurd hok (by simp)
  · rw [if_neg hready] at hok
    dsimp only at hok
    rcases hcomp : complete (buildPrompt (retrieve q) q) with e | ans
    · rw [hcomp] at hok
      exact absurd hok (by simp)
    · rw [hcomp] at hok
      dsimp only at hok
      rw [Except.ok.injEq] at hok
      subst hok
      exact ⟨rfl, rfl, hcomp⟩

/-- Witness for C3 at a concrete ready state, retriever and completion. -/
theorem query_sources_match_prompt_context_witness :
    ({ answer := "The rent is $1500 (Page 0).",
       sources := [rentDoc].map mkSource,
       context := [rentDoc] } : QueryResult).context = [rentDoc] ∧
    ({ answer := "The rent is $1500 (Page 0).",
       sources := [rentDoc].map mkSource,
       context := [rentDoc] } : QueryResult).sources = [rentDoc].map mkSource ∧
    (fun _ => (.ok "The rent is $1500 (Page 0)." : Except PyErr String))
        (buildPrompt [rentDoc] "How much is the rent?") =
      .ok "The rent is $1500 (Page 0)." := by
  have h := query_sources_match_prompt_context scenarioAState (fun _ => [rentDoc])
    (fun _ => .ok "The rent is $1500 (Page 0).") "How much is the rent?"
    { answer := "The rent is $1500 (Page 0).",
      sources := [rentDoc].map mkSource, context := [rentDoc] } rfl
  exact h

/-- C4 (amended): the loader assigns 0-based page metadata — the list of
page entries of the loaded documents is `0, 1, 2, ...` — and every chunk
the splitter produces carries the unchanged page and source metadata of
the page it was cut from; the first page is therefore reported as page
0, not page 1. -/
theorem chunk_pages_zero_based (path : String) (pages : List String) :
    (pyPDFLoad path pages).map Doc.page = (List.range pages.length).map some ∧
    ∀ d ∈ splitDocuments CHUNK_SIZE SEPARATORS (pyPDFLoad path pages),
      ∃ p ∈ pyPDFLoad path pages, d.page = p.page ∧ d.source = p.source := by
  constructor
  · show ((pages.enum.map _).map Doc.page) = _
    rw [List.map_map, ← List.enum_map_fst pages, List.map_map]
    rfl
  · intro d hd
    rcases List.mem_flatMap.mp hd with ⟨p, hp, hdp⟩
    rcases List.mem_map.mp hdp with ⟨t, _, rfl⟩
    exact ⟨p, hp, rfl, rfl⟩

set_option maxRecDepth 16384 in
/-- Witness for C4's amended statement: scenario A's rent chunk carries
the metadata of the first loaded page, whose page entry is 0. -/
theorem chunk_pages_zero_based_witness :
    ∃ p ∈ pyPDFLoad "lease.pdf" scenarioAPages,
      rentDoc.page = p.page ∧ rentDoc.source = p.source :=
  (chunk_pages_zero_based "lease.pdf" scenarioAPages).2 rentDoc (by decide)

set_option maxRecDepth 16384 in
/-- Counterexample to C4 as stated: constructing the system on scenario
A's two-page document gives chunks whose page metadata is 0 and 1, and a
query whose context is the page-one rent chunk reports
`sources[0].page = 0`, not 1. -/
theorem scenarioA_first_page_reported_as_zero :
    (LeaseRAG.init (some "sk-test") "lease.pdf" none none scenarioAPages).1 =
      .ok scenarioAState ∧
    scenarioAState.chunks.map Doc.page = [some 0, some 1] ∧
    (LeaseRAG.query scenarioAState (fun _ => [rentDoc])
        (fun _ => .ok "The monthly rent is $1500.") "How much is the rent?").1 =
      .ok { answer := "The monthly rent is $1500.",
            sources := [{ content := "The monthly rent is $1500, due on the 1st.",
                          page := .int 0, source := .str "lease.pdf" }],
            context := [rentDoc] } ∧
    SourceVal.int 0 ≠ SourceVal.int 1 := by
  refine ⟨rfl, rfl, rfl, by decide⟩

set_option maxRecDepth 16384 in
/-- C5 (the code against the claim): the prompt sent to the completion
service is independent of the configured `MAX_RESPONSE_SENTENCES` — for
every configured value it equals the prompt at the default — and at the
failing configuration 7 it is the literal hard-coded text whose ceiling
still reads "No more than 5 sentences.", unlike the rendering of
`config.py`'s own `PROMPT_TEMPLATE` at 7. -/
theorem prompt_ignores_configured_ceiling :
    (∀ (m : Nat) (docs : List Doc) (q : String),
      promptForConfig m docs q = promptForConfig MAX_RESPONSE_SENTENCES docs q) ∧
    promptForConfig 7 [rentDoc] "How much is the rent?" =
      "Answer the question based ONLY on the context below.\nFor every fact, you MUST cite the Page Number found in the metadata.\nTry to answer is a concise manner. No more than 5 sentences.\n\nContext:\nThe monthly rent is $1500, due on the 1st.\n\nQuestion: How much is the rent?\nAnswer:" ∧
    renderPromptTemplate 7 "ctx" "q" ≠ renderPromptTemplate MAX_RESPONSE_SENTENCES "ctx" "q" := by
  refine ⟨fun m docs q => rfl, by decide, by decide⟩

/-- C6 (amended): calling `query` when the retriever chain is not built
fails — no answer is returned and the state is unchanged — by raising
the generic `ValueError("RAG system not initialized")`, not a distinct
invalid-state error kind. -/
theorem query_not_ready_fails (st : RAGState) (retrieve : String → List Doc)
    (complete : String → Except PyErr String) (q : String)
    (h : st.retriever_chain = false) :
    (LeaseRAG.query st retrieve complete q).1 =
      .error (.valueError "RAG system not initialized") ∧
    (LeaseRAG.query st retrieve complete q).2 = st ∧
    (PyErr.valueError "RAG system not initialized").isNotReadyError = false := by
  unfold LeaseRAG.query
  rw [if_pos h]
  exact ⟨rfl, rfl, rfl⟩

/-- Witness for C6's amended statement at the unbuilt state. -/
theorem query_not_ready_fails_witness :
    (LeaseRAG.query emptyState (fun _ => []) (fun _ => .ok "answer")
        "How much is the rent?").1 =
      .error (.valueError "RAG system not initialized") ∧
    (LeaseRAG.query emptyState (fun _ => []) (fun _ => .ok "answer")
        "How much is the rent?").2 = emptyState ∧
    (PyErr.valueError "RAG system not initialized").isNotReadyError = false :=
  query_not_ready_fails emptyState (fun _ => []) (fun _ => .ok "answer")
    "How much is the rent?" rfl

/-- Counterexample to C6 as stated: in the unbuilt state the query call
surfaces the generic `ValueError("RAG system not initialized")`, an
error whose kind is not the distinct `NotReadyError` the claim names. -/
theorem query_not_ready_raises_generic_valueError :
    (LeaseRAG.query emptyState (fun _ => []) (fun _ => .ok "answer")
        "What is the security deposit?").1 =
      .error (.valueError "RAG system not initialized") ∧
    (PyErr.valueError "RAG system not initialized").isNotReadyError = false ∧
    (PyErr.notReadyError "RAG system not initialized").isNotReadyError = true := by
  exact ⟨rfl, rfl, rfl⟩

/-- C7: a completion-service failure during `query` fails that query with
the service's error, and the attribute state — the chunk collection, the
built retrievers and the retriever chain — is exactly what it was before
the call, so the query can be retried without re-ingestion. -/
theorem synthesis_failure_preserves_state (st : RAGState)
    (retrieve : String → List Doc) (complete : String → Except PyErr String)
    (q : String) (e : PyErr)
    (hfail : complete (buildPrompt (retrieve q) q) = .error e) :
    (LeaseRAG.query st retrieve complete q).2 = st ∧
    ((LeaseRAG.query st retrieve complete q).2).chunks = st.chunks ∧
    ((LeaseRAG.query st retrieve complete q).2).hybrid_retriever = st.hybrid_retriever ∧
    ((LeaseRAG.query st retrieve complete q).2).retriever_chain = st.retriever_chain ∧
    ((LeaseRAG.query st retrieve complete q).2).num_chunks = st.num_chunks ∧
    (st.retriever_chain = true →
      (LeaseRAG.query st retrieve complete q).1 = .error e) := by
  unfold LeaseRAG.query
  by_cases hready : st.retriever_chain = false
  · rw [if_pos hready]
    refine ⟨rfl, rfl, rfl, rfl, rfl, fun ht => ?_⟩
    rw [hready] at ht
    exact Bool.noConfusion ht
  · rw [if_neg hready]
    dsimp only
    rw [hfail]
    exact ⟨rfl, rfl, rfl, rfl, rfl, fun _ => rfl⟩

/-- Witness for C7 at a concrete failing completion service. -/
theorem synthesis_failure_preserves_state_witness :
    (LeaseRAG.query scenarioAState (fun _ => [rentDoc])
        (fun _ => .error (.openAIError "rate limit")) "How much is the rent?").2 =
      scenarioAState ∧
    ((LeaseRAG.query scenarioAState (fun _ => [rentDoc])
        (fun _ => .error (.openAIError "rate limit")) "How much is the rent?").2).chunks =
      scenarioAState.chunks ∧
    ((LeaseRAG.query scenarioAState (fun _ => [rentDoc])
        (fun _ => .error (.openAIError "rate limit"))
        "How much is the rent?").2).hybrid_retriever =
      scenarioAState.hybrid_retriever ∧
    ((LeaseRAG.query scenarioAState (fun _ => [rentDoc])
        (fun _ => .error (.openAIError "rate limit"))
        "How much is the rent?").2).retriever_chain =
      scenarioAState.retriever_chain ∧
    ((LeaseRAG.query scenarioAState (fun _ => [rentDoc])
        (fun _ => .error (.openAIError "rate limit"))
        "How much is the rent?").2).num_chunks =
      scenarioAState.num_chunks ∧
    (scenarioAState.retriever_chain = true →
      (LeaseRAG.query scenarioAState (fun _ => [rentDoc])
        (fun _ => .error (.openAIError "rate limit")) "How much is the rent?").1 =
        .error (.openAIError "rate limit")) :=
  synthesis_failure_preserves_state scenarioAState (fun _ => [rentDoc])
    (fun _ => .error (.openAIError "rate limit")) "How much is the rent?"
    (.openAIError "rate limit") rfl

/-- C8: with the chain built and the completion service answering, the
query succeeds and returns a well-formed response for any retrieved
chunks, and a chunk whose metadata lacks a page entry (or a source
entry) is reported with the string "Unknown" in that field — a missing
page number never makes the pipeline raise. -/
theorem missing_page_reports_Unknown (st : RAGState)
    (retrieve : String → List Doc) (complete : String → Except PyErr String)
    (q ans : String)
    (hready : st.retriever_chain = true)
    (hok : complete (buildPrompt (retrieve q) q) = .ok ans) :
    (LeaseRAG.query st retrieve complete q).1 =
      .ok { answer := ans, sources := (retrieve q).map mkSource,
            context := retrieve q } ∧
    (∀ d : Doc, d.page = none → (mkSource d).page = .str "Unknown") ∧
    (∀ d : Doc, d.source = none → (mkSource d).source = .str "Unknown") := by
  refine ⟨?_, ?_, ?_⟩
  · unfold LeaseRAG.query
    rw [if_neg (show ¬st.retriever_chain = false by simp [hready])]
    dsimp only
    rw [hok]
  · intro d hd
    simp [mkSource, hd]
  · intro d hd
    simp [mkSource, hd]

/-- Witness for C8 at a retrieved chunk with no page and no source
metadata. -/
theorem missing_page_reports_Unknown_witness :
    (LeaseRAG.query scenarioAState (fun _ => [noPageDoc])
        (fun _ => .ok "Late fees are 5%.") "What are the late fee charges?").1 =
      .ok { answer := "Late fees are 5%.",
            sources := [noPageDoc].map mkSource, context := [noPageDoc] } ∧
    (mkSource noPageDoc).page = .str "Unknown" ∧
    (mkSource noPageDoc).source = .str "Unknown" := by
  have h := missing_page_reports_Unknown scenarioAState (fun _ => [noPageDoc])
    (fun _ => .ok "Late fees are 5%.") "What are the late fee charges?"
    "Late fees are 5%." rfl rfl
  exact ⟨h.1, h.2.1 noPageDoc rfl, h.2.2 noPageDoc rfl⟩

/-- C9 (amended): when the OpenAI API key is absent (unset or empty) at
construction time, construction fails before any I/O — the effect list
is empty, so no document load, embedding call or index build has
happened — but with the generic `ValueError`, not a distinct
`ConfigurationError` kind. -/
theorem missing_api_key_fails_fast (apiKey : Option String) (path : String)
    (cs co : Option Int) (pages : List String)
    (hkey : apiKey.getD "" = "") :
    LeaseRAG.init apiKey path cs co pages =
      (.error (.valueError "OPENAI_API_KEY environment variable not set"), []) ∧
    (PyErr.valueError "OPENAI_API_KEY environment variable not set").isConfigurationError
      = false := by
  unfold LeaseRAG.init
  rw [if_pos hkey]
  exact ⟨rfl, rfl⟩

/-- Witness for C9's amended statement with the key unset. -/
theorem missing_api_key_fails_fast_witness :
    LeaseRAG.init none "lease.pdf" none none scenarioAPages =
      (.error (.valueError "OPENAI_API_KEY environment variable not set"), []) ∧
    (PyErr.valueError "OPENAI_API_KEY environment variable not set").isConfigurationError
      = false :=
  missing_api_key_fails_fast none "lease.pdf" none none scenarioAPages rfl

/-- Counterexample to C9 as stated: with the key unset the raised error
is a `ValueError` — not a `ConfigurationError` — though indeed before
any effect has been performed. -/
theorem missing_api_key_not_configurationError :
    (LeaseRAG.init none "lease.pdf" none none scenarioAPages).1 =
      .error (.valueError "OPENAI_API_KEY environment variable not set") ∧
    (LeaseRAG.init none "lease.pdf" none none scenarioAPages).2 = [] ∧
    (PyErr.valueError "OPENAI_API_KEY environment variable not set").isConfigurationError
      = false ∧
    (PyErr.configurationError
      "OPENAI_API_KEY environment variable not set").isConfigurationError = true := by
  exact ⟨rfl, rfl, rfl, rfl⟩

/-- C10: an explicit `chunk_size` or `chunk_overlap` argument of 0 is
indistinguishable from passing no argument at all — the Python `or`
fallback replaces the falsy 0 by the configured default in either
position — and a state constructed with either (or both) zeros reports
the defaults `CHUNK_SIZE = 250` and `CHUNK_OVERLAP = 50` in
`get_stats`, not 0. -/
theorem chunk_size_zero_uses_default (apiKey : Option String) (path : String)
    (cs co : Option Int) (pages : List String) :
    LeaseRAG.init apiKey path (some 0) co pages =
      LeaseRAG.init apiKey path none co pages ∧
    LeaseRAG.init apiKey path cs (some 0) pages =
      LeaseRAG.init apiKey path cs none pages ∧
    ∀ st : RAGState, (LeaseRAG.init apiKey path (some 0) (some 0) pages).1 = .ok st →
      (LeaseRAG.get_stats st).chunk_size = CHUNK_SIZE ∧
      (LeaseRAG.get_stats st).chunk_overlap = CHUNK_OVERLAP := by
  refine ⟨?_, ?_, ?_⟩
  · simp [LeaseRAG.init, pyOrInt]
  · simp [LeaseRAG.init, pyOrInt]
  · intro st h
    unfold LeaseRAG.init at h
    by_cases hk : apiKey.getD "" = ""
    · rw [if_pos hk] at h
      exact absurd h (by simp)
    · rw [if_neg hk] at h
      simp only [Except.ok.injEq] at h
      rw [← h]
      exact ⟨by simp [LeaseRAG.get_stats, pyOrInt], by simp [LeaseRAG.get_stats, pyOrInt]⟩

set_option maxRecDepth 16384 in
/-- Witness for C10: initialising scenario A with both chunk size 0 and
chunk overlap 0 yields the state whose reported chunk size is the
default 250 and whose reported chunk overlap is the default 50. -/
theorem chunk_size_zero_uses_default_witness :
    (LeaseRAG.get_stats scenarioAState).chunk_size = CHUNK_SIZE ∧
    (LeaseRAG.get_stats scenarioAState).chunk_overlap = CHUNK_OVERLAP :=
  (chunk_size_zero_uses_default (some "sk-test") "lease.pdf" (some 0) (some 0)
    scenarioAPages).2.2 scenarioAState rfl

end LeaseLooker
